import Mathlib

/-!
Verification of TB-keithley2600: a shallow embedding of the sweep engine in
keithley2600_extend.py and the stabilization procedures in procedures.py,
with theorems checking the natural-language specification against the code.
-/

namespace TBKeithley

/-- Dynamically-typed Python values that may be passed for the boolean-ish
arguments (only the shapes relevant here: bool, int, str). -/
inductive PyVal where
  | bool (b : Bool)
  | int (n : Int)
  | str (s : String)
deriving DecidableEq, Repr

/-- Python truthiness, as used by `if pulsed:` / `elif not pulsed:`. -/
def PyVal.truthy : PyVal → Bool
  | .bool b => b
  | .int n => decide (n ≠ 0)
  | .str s => decide (s ≠ "")

/-- Python exceptions raised by the embedded code. -/
inductive PyErr where
  | valueError
  | typeError
  | nameError (n : String)
deriving DecidableEq, Repr

/-- Lines 174-179 of keithley2600_extend.py (identical at lines 665-670):
`if pulsed: end_pulse_action = 0  # SOURCE_IDLE`
`elif not pulsed: end_pulse_action = 1  # SOURCE_HOLD`
`else: raise TypeError(...)`.
Python evaluates `pulsed` and `not pulsed` by truthiness. -/
def endPulseAction (pulsed : PyVal) : Except PyErr ℕ :=
  if pulsed.truthy then .ok 0
  else if !pulsed.truthy then .ok 1
  else .error .typeError

/-- The two channel roles passed to current_voltage_sweep_dual_smu:
`smui` sources current, `smuv` sources voltage. -/
inductive Chan where
  | smui
  | smuv
deriving DecidableEq, Repr

/-- Trigger-model event identifiers referenced by the sweep configuration. -/
inductive EventId where
  | trg
  | armed (c : Chan)
  | pulseComplete (c : Chan)
  | sourceComplete (c : Chan)
  | measureComplete (c : Chan)
  | blender (n : ℕ)
deriving DecidableEq, Repr

/-- Keithley trigger-blender semantics, per the driver comments:
`orenable = True` "triggers when either of the stimuli are true",
`orenable = False` "triggers when both stimuli are true". -/
def blenderFires (orenable s1 s2 : Bool) : Bool :=
  if orenable then s1 || s2 else s1 && s2

/-- The trigger-model state written by current_voltage_sweep_dual_smu.
All fields start unset (`none` / cleared). -/
structure TrigCfg where
  b1orenable : Bool := false
  b1stim1 : Option EventId := none
  b1stim2 : Option EventId := none
  b2orenable : Bool := false
  b2stim1 : Option EventId := none
  b2stim2 : Option EventId := none
  smuiSourceList : List ℚ := []
  smuvSourceList : List ℚ := []
  smuiCount : ℕ := 0
  smuvCount : ℕ := 0
  smuiMeasStim : Option EventId := none
  smuvMeasStim : Option EventId := none
  smuiEndpulseAction : Option ℕ := none
  smuvEndpulseAction : Option ℕ := none
  smuiEndsweepAction : Option ℕ := none
  smuvEndsweepAction : Option ℕ := none
  smuiEndpulseStim : Option EventId := none
  smuiSourceStim : Option EventId := none
  smuiArmStim : Option EventId := none
deriving DecidableEq, Repr

def initTrigCfg : TrigCfg := {}

/-- Hardware interactions issued over the instrument connection. -/
inductive HwCall where
  | loadList (c : Chan)
  | setIntegrationTime (c : Chan)
  | setMeasureDelay (c : Chan)
  | setAutorange (c : Chan)
  | setSourceFunc (c : Chan)
  | clearBuffers (c : Chan)
  | setDisplay (c : Chan)
  | outputOn (c : Chan)
  | initiateTrigger (c : Chan)
  | sendTrigger
  | pollStatus
  | readBuffers (c : Chan)
  | reset
  | beep (dur freq : ℚ)
deriving DecidableEq, Repr

/-- Instrument buffer contents read back by read_buffer at the end of a sweep
(nvbuffer1 holds measured currents, nvbuffer2 measured voltages). -/
structure Bufs where
  smuiNv1 : List ℚ
  smuiNv2 : List ℚ
  smuvNv1 : List ℚ
  smuvNv2 : List ℚ
deriving DecidableEq, Repr

/-- Result quadruple of current_voltage_sweep_dual_smu:
`(v_smui, i_smui, v_smuv, i_smuv)`. -/
structure DualOut where
  vSmui : List ℚ
  iSmui : List ℚ
  vSmuv : List ℚ
  iSmuv : List ℚ
deriving DecidableEq, Repr

/-- Hardware calls issued by current_voltage_sweep_dual_smu before the
`pulsed` dispatch (lines 82-167): list loads, integration time, measure
delay, conditional autorange (skipped in high-capacitance mode), source
function, buffer clears, display setup. -/
def dualTracePrefix (highcI highcV : Bool) : List HwCall :=
  [.loadList .smui, .loadList .smuv,
   .setIntegrationTime .smui, .setIntegrationTime .smuv,
   .setMeasureDelay .smui, .setMeasureDelay .smuv]
  ++ (if highcI then [] else [.setAutorange .smui])
  ++ (if highcV then [] else [.setAutorange .smuv])
  ++ [.setSourceFunc .smui, .setSourceFunc .smuv,
      .clearBuffers .smui, .clearBuffers .smuv,
      .setDisplay .smui, .setDisplay .smuv]

/-- Hardware calls issued after configuration (lines 227-264): output on,
initiate, global trigger, the two status-poll loops, buffer reads, final
buffer clears. -/
def dualTraceSuffix : List HwCall :=
  [.outputOn .smui, .outputOn .smuv,
   .initiateTrigger .smui, .initiateTrigger .smuv,
   .sendTrigger, .pollStatus,
   .readBuffers .smui, .readBuffers .smuv,
   .clearBuffers .smui, .clearBuffers .smuv]

/-- Trigger-model configuration written before the `pulsed` dispatch
(lines 86-167): source lists, counts, and both measure stimuli set to
smui's source-complete event. -/
def dualCfgPrePulse (li lv : List ℚ) : TrigCfg :=
  { smuiSourceList := li
    smuvSourceList := lv
    smuiCount := li.length
    smuvCount := li.length
    smuiMeasStim := some (.sourceComplete .smui)
    smuvMeasStim := some (.sourceComplete .smui) }

/-- Full trigger-model configuration written by
current_voltage_sweep_dual_smu (lines 86-224): the pre-pulse part, the
end-of-pulse/end-of-sweep actions on both channels, smui's arm stimulus,
blender #1 (OR of armed and pulse-complete, feeding smui's source
stimulus), and blender #2 (AND of both measure-complete events, feeding
smui's end-of-pulse stimulus). -/
def dualCfg (li lv : List ℚ) (epa : ℕ) : TrigCfg :=
  { smuiSourceList := li
    smuvSourceList := lv
    smuiCount := li.length
    smuvCount := li.length
    smuiMeasStim := some (.sourceComplete .smui)
    smuvMeasStim := some (.sourceComplete .smui)
    smuiEndpulseAction := some epa
    smuvEndpulseAction := some epa
    smuiEndsweepAction := some epa
    smuvEndsweepAction := some epa
    smuiArmStim := some .trg
    b1orenable := true
    b1stim1 := some (.armed .smui)
    b1stim2 := some (.pulseComplete .smui)
    smuiSourceStim := some (.blender 1)
    b2orenable := false
    b2stim1 := some (.measureComplete .smui)
    b2stim2 := some (.measureComplete .smuv)
    smuiEndpulseStim := some (.blender 2) }

/-- Shallow embedding of current_voltage_sweep_dual_smu
(keithley2600_extend.py lines 35-266).  Inputs: the two sweep lists, the
abort-event flag at the time of the check on line 75, the `pulsed`
argument, the instrument buffer contents, and the two channels'
high-capacitance flags.  Output: the Python return value or exception,
together with the trigger-model configuration written and the ordered
hardware-call trace.  The length check (line 68) precedes the abort check
(line 75); both precede any hardware interaction. -/
def currentVoltageSweepDualSmu (li lv : List ℚ) (abortSet : Bool) (pulsed : PyVal)
    (bufs : Bufs) (highcI highcV : Bool) :
    Except PyErr DualOut × TrigCfg × List HwCall :=
  if li.length ≠ lv.length then
    (.error .valueError, initTrigCfg, [])
  else if abortSet then
    (.ok ⟨[], [], [], []⟩, initTrigCfg, [])
  else
    match endPulseAction pulsed with
    | .error e => (.error e, dualCfgPrePulse li lv, dualTracePrefix highcI highcV)
    | .ok epa =>
        (.ok ⟨bufs.smuiNv2, bufs.smuiNv1, bufs.smuvNv2, bufs.smuvNv1⟩,
         dualCfg li lv epa,
         dualTracePrefix highcI highcV ++ dualTraceSuffix)

/-- numpy.sign on rationals (computable via the numerator's sign). -/
def npSign (q : ℚ) : ℚ :=
  if 0 < q.num then 1 else if q.num < 0 then -1 else 0

/-- Absolute value on rationals, kept executable. -/
def ratAbs (q : ℚ) : ℚ :=
  if q.num < 0 then -q else q

/-- Ceiling of a rational, kept executable: `⌈q⌉ = -⌊-q⌋` with floor
realised by Euclidean division of the numerator by the denominator. -/
def ratCeil (q : ℚ) : ℤ :=
  -((-q.num).ediv q.den)

/-- Number of points numpy.arange(start, stop, step) produces:
`max(0, ceil((stop - start) / step))` (0 points for a zero step, matching
an empty range; numpy itself rejects step 0, which never occurs here). -/
def arangeCount (start stop step : ℚ) : ℕ :=
  if step = 0 then 0 else (ratCeil ((stop - start) / step)).toNat

/-- numpy.arange(start, stop, step): `start + i * step` for `i < count`. -/
def arange (start stop step : ℚ) : List ℚ :=
  (List.range (arangeCount start stop step)).map (fun i => start + i * step)

/-- Forward gate axis (keithley2600_extend.py lines 317-318):
`step = np.sign(vg_stop - vg_start) * abs(vg_step)` and
`np.arange(vg_start, vg_stop + step, step)` — always includes a step past
vg_stop in the direction of travel. -/
def sweeplistGateFwd (vgStart vgStop vgStep : ℚ) : List ℚ :=
  let step := npSign (vgStop - vgStart) * ratAbs vgStep
  arange vgStart (vgStop + step) step

/-- Concatenated gate axis (lines 319-320): forward list followed by its
flip (exact reverse). -/
def sweeplistGate (vgStart vgStop vgStep : ℚ) : List ℚ :=
  sweeplistGateFwd vgStart vgStop vgStep
    ++ (sweeplistGateFwd vgStart vgStop vgStep).reverse

/-- Direction-flag vector (lines 322-325): ones over the forward half
appended with zeros over the reversed half. -/
def directionGateFwd (vgStart vgStop vgStep : ℚ) : List ℕ :=
  List.replicate (sweeplistGateFwd vgStart vgStop vgStep).length 1
    ++ List.replicate (sweeplistGateFwd vgStart vgStop vgStep).length 0

/-- Cooperative abort flag: cleared at the start of the recorder, then set
(and never cleared) from check-instant `a` on; `t` counts abort-flag reads
since the start. -/
def abortIsSet (aStart : Option ℕ) (t : ℕ) : Bool :=
  match aStart with
  | none => false
  | some a => decide (a ≤ t)

/-- One outer-iteration batch appended to the transfer-curve table
(lines 354-364): the dict passed to pandas.DataFrame. -/
structure Batch where
  idrain : ℚ
  vgSP : List ℚ
  idSP : List ℚ
  dirFwd : List ℕ
  vg : List ℚ
  ig : List ℚ
  vd : List ℚ
  idMeas : List ℚ
deriving DecidableEq, Repr

/-- Outer loop of transfer_measurement_i (lines 330-367) over the drain
currents.  `t` counts abort-flag checks (three per iteration: top of loop,
inside the dual sweep, after the sweep); `n` indexes the per-iteration
instrument buffer contents.  On an abort caught at the top of the loop the
code resets the instrument, beeps (0.3 s, 2400 Hz) and returns the table
accumulated so far; after the last outer value it resets and returns. -/
def transferGo (gate : List ℚ) (dirs : List ℕ) (pulsed : PyVal)
    (highcD highcG : Bool) (meas : ℕ → Bufs) (aStart : Option ℕ) :
    List ℚ → ℕ → ℕ → Except PyErr (List Batch) × List HwCall
  | [], _, _ => (.ok [], [.reset])
  | idrain :: rest, n, t =>
    if abortIsSet aStart t then
      (.ok [], [.reset, .beep (3/10) 2400])
    else
      let drain := List.replicate gate.length idrain
      match currentVoltageSweepDualSmu drain gate (abortIsSet aStart (t + 1))
          pulsed (meas n) highcD highcG with
      | (.error e, _, tr) => (.error e, tr)
      | (.ok out, _, tr) =>
        match transferGo gate dirs pulsed highcD highcG meas aStart rest (n + 1) (t + 3) with
        | (.error e, tr2) => (.error e, tr ++ tr2)
        | (.ok bs, tr2) =>
          if abortIsSet aStart (t + 2) then
            (.ok bs, tr ++ tr2)
          else
            (.ok (⟨idrain, gate, drain, dirs, out.vSmuv, out.iSmuv, out.vSmui, out.iSmui⟩ :: bs),
             tr ++ tr2)

/-- Shallow embedding of transfer_measurement_i (lines 269-371): builds the
forward+reverse gate axis and direction flags, clears the abort flag, and
runs the outer loop; each iteration sweeps a constant drain list against
the gate axis via `currentVoltageSweepDualSmu` with channel roles
`(smu_drain, smu_gate)`, so the returned quadruple maps to
`(v_d, i_d, v_g, i_g)`. -/
def transferMeasurementI (vgStart vgStop vgStep : ℚ) (idList : List ℚ)
    (pulsed : PyVal) (highcD highcG : Bool) (meas : ℕ → Bufs)
    (aStart : Option ℕ) : Except PyErr (List Batch) × List HwCall :=
  transferGo (sweeplistGate vgStart vgStop vgStep)
    (directionGateFwd vgStart vgStop vgStep)
    pulsed highcD highcG meas aStart idList 0 0

/-- settings.py: `'wait_after_stab_M': 10` (seconds). -/
def settingsWaitAfterStabM : ℚ := 10

/-- settings.py: `'wait_after_stab_T': 10` (seconds). -/
def settingsWaitAfterStabT : ℚ := 10

/-- procedures.py lines 111-115, is_temperature_stable: when temperature
control is active, the secnode status code must lie in `100 <= s < 200`;
an inactive target is immediately stable. -/
def isTemperatureStable (tActive : Bool) (ttStatus : Int) : Bool :=
  if tActive then decide (100 ≤ ttStatus ∧ ttStatus < 200) else true

/-- procedures.py lines 118-122, is_m_field_stable: same band check on the
magnetic-field status code. -/
def isMFieldStable (mActive : Bool) (mfStatus : Int) : Bool :=
  if mActive then decide (100 ≤ mfStatus ∧ mfStatus < 200) else true

/-- procedures.py lines 79-83, get_temperature: reads the secnode value
when active, otherwise returns the sentinel -1.0. -/
def getTemperature (tActive : Bool) (ttValue : ℚ) : ℚ :=
  if tActive then ttValue else -1

/-- procedures.py lines 95-99, get_m_field: same with the field value. -/
def getMField (mActive : Bool) (mfValue : ℚ) : ℚ :=
  if mActive then mfValue else -1

/-- One polling cycle's observations inside stabilize_TB: the should_stop
flag and the two status codes read that cycle. -/
structure StabObs where
  stop : Bool
  ttStatus : Int
  mfStatus : Int
deriving DecidableEq, Repr

/-- Externally visible actions of stabilize_TB. -/
inductive StabAct where
  | setT (v : ℚ)
  | setB (v : ℚ)
  | sleepLoop
  | sleepPost (secs : ℚ)
deriving DecidableEq, Repr

/-- The polling loop of stabilize_TB (procedures.py lines 133-151):
`while not (t_stable and m_stable)` checks should_stop, sleeps 1 s, then
re-evaluates each still-unstable target.  Observations are consumed one
per cycle; `none` means the loop did not exit within the modelled horizon.
Returns (stopped-early flag, sleep actions performed). -/
def stabilizeLoop (tA mA : Bool) (obs : List StabObs) (tS mS : Bool) :
    Option (Bool × List StabAct) :=
  if tS && mS then some (false, [])
  else
    match obs with
    | [] => none
    | o :: rest =>
      if o.stop then some (true, [])
      else
        match stabilizeLoop tA mA rest (tS || isTemperatureStable tA o.ttStatus)
            (mS || isMFieldStable mA o.mfStatus) with
        | none => none
        | some (st, acts) => some (st, .sleepLoop :: acts)

/-- Shallow embedding of stabilize_TB (procedures.py lines 125-162):
writes the setpoints (only for active targets, lines 86-93 / 102-108),
runs the polling loop, re-checks should_stop after the loop, and — when
either control is active — sleeps `np.max([wait_after_stab_M,
wait_after_stab_T])` once before returning False ("proceed").  Returns
`some (stoppedEarly, action trace)`, or `none` when the loop does not
terminate within the observation horizon. -/
def stabilizeTB (tA mA : Bool) (tSP mSP waitM waitT : ℚ) (obs : List StabObs)
    (finalStop : Bool) : Option (Bool × List StabAct) :=
  let pre : List StabAct :=
    (if tA then [.setT tSP] else []) ++ (if mA then [.setB mSP] else [])
  match stabilizeLoop tA mA obs false false with
  | none => none
  | some (true, acts) => some (true, pre ++ acts)
  | some (false, acts) =>
    if finalStop then some (true, pre ++ acts)
    else if tA || mA then
      some (false, pre ++ acts ++ [.sleepPost (max waitM waitT)])
    else
      some (false, pre ++ acts)

/-- The post-settle delays configured (settings.py) for the targets whose
control is active. -/
def activeDelays (tA mA : Bool) : List ℚ :=
  (if tA then [settingsWaitAfterStabT] else [])
    ++ (if mA then [settingsWaitAfterStabM] else [])

/-- An instrument handle created by the factory: its identity (allocation
number) and the visa address it was opened for. -/
structure KInstance where
  instId : ℕ
  visaAddress : String
deriving DecidableEq, Repr

/-- The factory's class-level `_instances` cache plus a fresh-identity
counter. -/
structure FactoryState where
  nextId : ℕ
  instances : List KInstance
deriving DecidableEq, Repr

/-- Shallow embedding of Keithley2600ExtendFactory.__new__
(keithley2600_extend.py lines 756-771): scan the cached instances for one
whose visa_address matches; return it if found, otherwise construct a new
instance (fresh identity), cache it and return it. -/
def factoryNew (s : FactoryState) (address : String) :
    KInstance × FactoryState :=
  match s.instances.find? (fun i => i.visaAddress == address) with
  | some i => (i, s)
  | none =>
    (⟨s.nextId, address⟩,
     ⟨s.nextId + 1, s.instances ++ [⟨s.nextId, address⟩]⟩)

/-- Names bound at module level in procedures.py (imports and top-level
definitions) when TBIVProcedure.execute runs. -/
def proceduresGlobalNames : List String :=
  ["logging", "sleep", "datetime", "Path", "np", "settings",
   "Procedure", "FloatParameter", "BooleanParameter", "Parameter",
   "Metadata", "SecopClient", "Keithley2600ExtendFactory", "log",
   "ATBProcedure", "TBGProcedure", "TBIVProcedure"]

/-- The Python builtins referenced by procedures.py. -/
def pyBuiltinNames : List String :=
  ["enumerate", "zip", "len", "str", "range", "getattr", "print",
   "float", "int", "bool", "abs", "max", "min"]

/-- One result row emitted by TBIVProcedure.execute (lines 299-311). -/
structure IVRow where
  index : ℕ
  idSP : ℚ
  vd : ℚ
  idMeas : ℚ
deriving DecidableEq, Repr

/-- Modelled from the spec: the intended result-row iteration of
TBIVProcedure.execute — "enumerate the zipped per-step values with a
0-based index", one row per sweep point, with the drain-current setpoint,
measured voltage and measured current of that point. -/
def ivEmitRowsIntended (sweep vdl idl : List ℚ) : List IVRow :=
  (((sweep.zip vdl).zip idl).enum).map
    (fun p => ⟨p.1, p.2.1.1, p.2.1.2, p.2.2⟩)

/-- The emission loop of TBIVProcedure.execute (procedures.py line 298):
`for index, (idsp, vd, id) in enum(zip(sweeplist_drain, vdlist, idlist))`.
Python first resolves the name `enum` against the module globals and the
builtins; if it is bound nowhere, the loop raises NameError before
emitting any row, otherwise it would perform the intended enumeration. -/
def tbivEmission (sweep vdl idl : List ℚ) : Except PyErr (List IVRow) :=
  if "enum" ∈ proceduresGlobalNames ++ pyBuiltinNames then
    .ok (ivEmitRowsIntended sweep vdl idl)
  else
    .error (.nameError "enum")

/-- Recognizer for the post-settle sleep action. -/
def isSleepPost : StabAct → Bool
  | .sleepPost _ => true
  | _ => false

/-!  Helper lemmas (shared across the claim theorems). -/

/-- The `pulsed` dispatch always succeeds: `if pulsed` and `elif not pulsed`
together cover every Python value, so the `raise TypeError` arm is dead. -/
lemma endPulseAction_eq (p : PyVal) :
    endPulseAction p = .ok (if p.truthy then 0 else 1) := by
  unfold endPulseAction
  cases h : p.truthy <;> simp [h]

/-- The instance returned by the factory always carries the requested
address. -/
lemma factoryNew_visaAddress (s : FactoryState) (a : String) :
    (factoryNew s a).1.visaAddress = a := by
  unfold factoryNew
  cases h : s.instances.find? (fun i => i.visaAddress == a) with
  | none => simp
  | some i =>
    have hp := List.find?_some h
    simp only [beq_iff_eq] at hp
    simp [hp]

/-- Every action recorded by the stabilization polling loop is a 1 s loop
sleep. -/
lemma stabilizeLoop_acts_sleep (tA mA : Bool) :
    ∀ (obs : List StabObs) (tS mS st : Bool) (acts : List StabAct),
      stabilizeLoop tA mA obs tS mS = some (st, acts) →
      ∀ a ∈ acts, a = .sleepLoop := by
  intro obs
  induction obs with
  | nil =>
    intro tS mS st acts h
    rw [stabilizeLoop] at h
    by_cases hts : (tS && mS) = true
    · simp [hts] at h
      obtain ⟨h1, h2⟩ := h
      subst h2
      simp
    · simp [hts] at h
  | cons o rest ih =>
    intro tS mS st acts h
    rw [stabilizeLoop] at h
    by_cases hts : (tS && mS) = true
    · simp [hts] at h
      obtain ⟨h1, h2⟩ := h
      subst h2
      simp
    · simp [hts] at h
      by_cases hstop : o.stop = true
      · simp [hstop] at h
        obtain ⟨h1, h2⟩ := h
        subst h2
        simp
      · simp [hstop] at h
        cases hrec : stabilizeLoop tA mA rest
            (tS || isTemperatureStable tA o.ttStatus)
            (mS || isMFieldStable mA o.mfStatus) with
        | none => rw [hrec] at h; simp at h
        | some pr =>
          obtain ⟨st0, acts0⟩ := pr
          rw [hrec] at h
          simp at h
          obtain ⟨hst, hacts⟩ := h
          subst hacts
          intro a ha
          rcases List.mem_cons.1 ha with h1 | h2
          · exact h1
          · exact ih _ _ _ _ hrec a h2

end TBKeithley

namespace TBKeithley

/-- Concrete evaluation of the forward gate axis for start=0, stop=5,
step=1. -/
lemma sweeplistGateFwd_eval : sweeplistGateFwd 0 5 1 = [0, 1, 2, 3, 4, 5] := by
  have hc : arangeCount 0 6 1 = 6 := by
    have h1 : ((6 : ℚ) - 0) / 1 = 6 := by norm_num
    rw [arangeCount, if_neg (by norm_num), h1]
    decide
  have h2 : sweeplistGateFwd 0 5 1 = arange 0 6 1 := by
    rw [sweeplistGateFwd]
    norm_num [npSign, ratAbs]
  rw [h2, arange, hc]
  simp [List.range_succ]

/-- C1: after current_voltage_sweep_dual_smu configures the trigger model
(equal-length lists, abort not set), event blender #2 has orenable false
(AND: with orenable false it fires only when both stimuli are true), its
stimuli are the measurement-complete events of smui and smuv, and smui's
end-of-pulse stimulus is blender #2's derived event — the next source step
waits for both channels' measurements. -/
theorem dual_sweep_blender2_and_semantics
    (li lv : List ℚ) (pulsed : PyVal) (bufs : Bufs) (hI hV : Bool)
    (h : li.length = lv.length) :
    (currentVoltageSweepDualSmu li lv false pulsed bufs hI hV).2.1.b2orenable = false
    ∧ (currentVoltageSweepDualSmu li lv false pulsed bufs hI hV).2.1.b2stim1
        = some (.measureComplete .smui)
    ∧ (currentVoltageSweepDualSmu li lv false pulsed bufs hI hV).2.1.b2stim2
        = some (.measureComplete .smuv)
    ∧ (currentVoltageSweepDualSmu li lv false pulsed bufs hI hV).2.1.smuiEndpulseStim
        = some (.blender 2)
    ∧ ∀ s1 s2 : Bool,
        blenderFires
            (currentVoltageSweepDualSmu li lv false pulsed bufs hI hV).2.1.b2orenable
            s1 s2 = true
          ↔ (s1 = true ∧ s2 = true) := by
  have hcfg : (currentVoltageSweepDualSmu li lv false pulsed bufs hI hV).2.1
      = dualCfg li lv (if pulsed.truthy then 0 else 1) := by
    unfold currentVoltageSweepDualSmu
    rw [if_neg (by simp [h]), endPulseAction_eq]
    simp
  rw [hcfg]
  refine ⟨rfl, rfl, rfl, rfl, fun s1 s2 => ?_⟩
  simp [dualCfg, blenderFires]

/-- Witness for C1 at the concrete input `[1]`, `[2]`, continuous sweep. -/
theorem dual_sweep_blender2_and_semantics_witness :
    (currentVoltageSweepDualSmu [(1 : ℚ)] [(2 : ℚ)] false (.bool false)
        ⟨[], [], [], []⟩ false false).2.1.b2orenable = false
    ∧ (currentVoltageSweepDualSmu [(1 : ℚ)] [(2 : ℚ)] false (.bool false)
        ⟨[], [], [], []⟩ false false).2.1.b2stim1
        = some (.measureComplete .smui)
    ∧ (currentVoltageSweepDualSmu [(1 : ℚ)] [(2 : ℚ)] false (.bool false)
        ⟨[], [], [], []⟩ false false).2.1.b2stim2
        = some (.measureComplete .smuv)
    ∧ (currentVoltageSweepDualSmu [(1 : ℚ)] [(2 : ℚ)] false (.bool false)
        ⟨[], [], [], []⟩ false false).2.1.smuiEndpulseStim
        = some (.blender 2)
    ∧ ∀ s1 s2 : Bool,
        blenderFires
            (currentVoltageSweepDualSmu [(1 : ℚ)] [(2 : ℚ)] false (.bool false)
              ⟨[], [], [], []⟩ false false).2.1.b2orenable
            s1 s2 = true
          ↔ (s1 = true ∧ s2 = true) :=
  dual_sweep_blender2_and_semantics [(1 : ℚ)] [(2 : ℚ)] (.bool false)
    ⟨[], [], [], []⟩ false false (by decide)

/-- C4: the swept gate axis is the forward range (including the step past
vg_stop) concatenated with its exact reverse, the direction flags are ones
over the forward half and zeros over the reverse half, and for start=0,
stop=5, step=1 the axis is [0,1,2,3,4,5,5,4,3,2,1,0] with flags
[1,1,1,1,1,1,0,0,0,0,0,0]. -/
theorem transfer_gate_axis_forward_reverse :
    sweeplistGate 0 5 1 = [0, 1, 2, 3, 4, 5, 5, 4, 3, 2, 1, 0]
    ∧ directionGateFwd 0 5 1 = [1, 1, 1, 1, 1, 1, 0, 0, 0, 0, 0, 0]
    ∧ ∀ s t p : ℚ,
        sweeplistGate s t p
          = sweeplistGateFwd s t p ++ (sweeplistGateFwd s t p).reverse
        ∧ directionGateFwd s t p
          = List.replicate (sweeplistGateFwd s t p).length 1
            ++ List.replicate (sweeplistGateFwd s t p).length 0 := by
  refine ⟨?_, ?_, fun s t p => ⟨rfl, rfl⟩⟩
  · rw [sweeplistGate, sweeplistGateFwd_eval]
    rfl
  · rw [directionGateFwd, sweeplistGateFwd_eval]
    rfl

/-- C2: For every pair of sweep lists of unequal length,
current_voltage_sweep_dual_smu raises ValueError immediately: the result
is the ValueError exception, the trigger configuration is untouched and
the hardware-call trace is empty (no channel-configuration, arm or
initiate call, no hardware state change). -/
theorem dual_sweep_unequal_lengths_value_error
    (li lv : List ℚ) (abortSet : Bool) (pulsed : PyVal) (bufs : Bufs)
    (hI hV : Bool) (h : li.length ≠ lv.length) :
    currentVoltageSweepDualSmu li lv abortSet pulsed bufs hI hV
      = (.error .valueError, initTrigCfg, []) := by
  unfold currentVoltageSweepDualSmu
  rw [if_pos h]

/-- Witness for C2 at the concrete input `[0]` vs `[]`. -/
theorem dual_sweep_unequal_lengths_value_error_witness :
    currentVoltageSweepDualSmu [(0 : ℚ)] [] false (.bool true)
        ⟨[], [], [], []⟩ false false
      = (.error .valueError, initTrigCfg, []) :=
  dual_sweep_unequal_lengths_value_error [(0 : ℚ)] [] false (.bool true)
    ⟨[], [], [], []⟩ false false (by decide)

/-- C3 counterexample: with the abort flag set and the unequal-length pair
`([0], [])`, current_voltage_sweep_dual_smu does not return four empty
lists — the length check precedes the abort check and raises ValueError. -/
theorem dual_sweep_abort_preset_counterexample :
    (currentVoltageSweepDualSmu [(0 : ℚ)] [] true (.bool false)
        ⟨[], [], [], []⟩ false false).1
      ≠ .ok ⟨[], [], [], []⟩ := by
  unfold currentVoltageSweepDualSmu
  simp

/-- C3 (amended): for every pair of *equal-length* sweep lists, if the
abort flag is set before the call, current_voltage_sweep_dual_smu returns
four empty result lists, writes no trigger configuration and performs no
hardware interaction. -/
theorem dual_sweep_abort_preset_returns_empty
    (li lv : List ℚ) (pulsed : PyVal) (bufs : Bufs) (hI hV : Bool)
    (h : li.length = lv.length) :
    currentVoltageSweepDualSmu li lv true pulsed bufs hI hV
      = (.ok ⟨[], [], [], []⟩, initTrigCfg, []) := by
  unfold currentVoltageSweepDualSmu
  rw [if_neg (by simp [h])]
  simp

/-- Witness for the amended C3 at the concrete input `[1]`, `[2]`. -/
theorem dual_sweep_abort_preset_returns_empty_witness :
    currentVoltageSweepDualSmu [(1 : ℚ)] [(2 : ℚ)] true (.bool false)
        ⟨[], [], [], []⟩ false false
      = (.ok ⟨[], [], [], []⟩, initTrigCfg, []) :=
  dual_sweep_abort_preset_returns_empty [(1 : ℚ)] [(2 : ℚ)] (.bool false)
    ⟨[], [], [], []⟩ false false (by decide)

/-- C5: `pulsed=True` sets the end-of-pulse (and end-of-sweep) action to
SOURCE_IDLE (0) and `pulsed=False` to SOURCE_HOLD (1), but the
`raise TypeError` arm is unreachable: a non-bool such as the truthy string
"no" silently selects SOURCE_IDLE, and no Python value reaches the
TypeError, because `if pulsed` / `elif not pulsed` cover all truthiness
values. -/
theorem end_pulse_action_dead_type_error :
    endPulseAction (.bool true) = .ok 0
    ∧ endPulseAction (.bool false) = .ok 1
    ∧ endPulseAction (.str "no") = .ok 0
    ∧ ∀ v : PyVal, endPulseAction v ≠ .error .typeError := by
  refine ⟨rfl, rfl, rfl, fun v => ?_⟩
  rw [endPulseAction_eq]
  simp

/-- C6: each stability predicate returns true iff its control-active flag
is false or the status code lies in the half-open band [100, 200); for an
active target the codes 0, 99, 200 and 250 read as unstable while 100 and
199 read as stable, and an inactive target is always stable. -/
theorem stability_predicates_band :
    (∀ (a : Bool) (st : Int),
        (isTemperatureStable a st = true ↔ (a = false ∨ (100 ≤ st ∧ st < 200)))
        ∧ (isMFieldStable a st = true ↔ (a = false ∨ (100 ≤ st ∧ st < 200))))
    ∧ isTemperatureStable true 0 = false
    ∧ isTemperatureStable true 99 = false
    ∧ isTemperatureStable true 200 = false
    ∧ isTemperatureStable true 250 = false
    ∧ isTemperatureStable true 100 = true
    ∧ isTemperatureStable true 199 = true
    ∧ isMFieldStable true 0 = false
    ∧ isMFieldStable true 99 = false
    ∧ isMFieldStable true 200 = false
    ∧ isMFieldStable true 250 = false
    ∧ isMFieldStable true 100 = true
    ∧ isMFieldStable true 199 = true
    ∧ isTemperatureStable false 0 = true
    ∧ isMFieldStable false 250 = true := by
  refine ⟨fun a st => ?_, ?_, ?_, ?_, ?_, ?_, ?_, ?_, ?_, ?_, ?_, ?_, ?_, ?_, ?_⟩
  · cases a <;> simp [isTemperatureStable, isMFieldStable]
  all_goals decide

/-- C9: two factory requests with the identical visa address return the
same instance (the second lookup finds exactly the instance the first call
returned or created), and a subsequent request with a different address
returns a distinct instance. -/
theorem factory_identity_by_address
    (s : FactoryState) (a1 a2 : String) (h : a1 ≠ a2) :
    (factoryNew (factoryNew s a1).2 a1).1 = (factoryNew s a1).1
    ∧ (factoryNew (factoryNew s a1).2 a2).1 ≠ (factoryNew s a1).1 := by
  constructor
  · cases h1 : s.instances.find? (fun i => i.visaAddress == a1) with
    | some i =>
      unfold factoryNew
      rw [h1]
      simp [h1]
    | none =>
      unfold factoryNew
      rw [h1]
      simp only
      rw [List.find?_append, h1]
      simp
  · intro heq
    have h2 := factoryNew_visaAddress (factoryNew s a1).2 a2
    have h3 := factoryNew_visaAddress s a1
    rw [heq, h3] at h2
    exact h h2

/-- Witness for C9 from the empty cache with the repository's visa address
and a second distinct address. -/
theorem factory_identity_by_address_witness :
    (factoryNew (factoryNew ⟨0, []⟩ "TCPIP0::192.168.0.44::INSTR").2
        "TCPIP0::192.168.0.44::INSTR").1
      = (factoryNew ⟨0, []⟩ "TCPIP0::192.168.0.44::INSTR").1
    ∧ (factoryNew (factoryNew ⟨0, []⟩ "TCPIP0::192.168.0.44::INSTR").2
        "TCPIP0::192.168.0.45::INSTR").1
      ≠ (factoryNew ⟨0, []⟩ "TCPIP0::192.168.0.44::INSTR").1 :=
  factory_identity_by_address ⟨0, []⟩ "TCPIP0::192.168.0.44::INSTR"
    "TCPIP0::192.168.0.45::INSTR" (by decide)

/-- C7: when stabilize_TB completes with both targets stable and no abort
(result False = proceed) and at least one control is active, the action
trace ends with exactly one post-settle sleep, of duration
`max(wait_after_stab_M, wait_after_stab_T)` — which, with the repository's
configured delays (10 s each), equals the maximum of the delays configured
for the active targets, a single shared dwell, not a per-target sum. -/
theorem stabilize_post_settle_max_dwell
    (tA mA : Bool) (tSP mSP : ℚ) (obs : List StabObs) (acts : List StabAct)
    (hA : (tA || mA) = true)
    (h : stabilizeTB tA mA tSP mSP settingsWaitAfterStabM settingsWaitAfterStabT
          obs false = some (false, acts)) :
    acts.filter isSleepPost = [.sleepPost ((activeDelays tA mA).foldr max 0)]
    ∧ acts.getLast?
        = some (.sleepPost (max settingsWaitAfterStabM settingsWaitAfterStabT)) := by
  unfold stabilizeTB at h
  cases hrec : stabilizeLoop tA mA obs false false with
  | none => rw [hrec] at h; simp at h
  | some pr =>
    obtain ⟨st0, acts0⟩ := pr
    rw [hrec] at h
    cases st0 with
    | true => simp at h
    | false =>
      simp only [Bool.false_eq_true, if_false, hA, if_true] at h
      injection h with h1
      injection h1 with h2 hacts
      subst hacts
      have hsleep : ∀ a ∈ acts0, a = StabAct.sleepLoop :=
        stabilizeLoop_acts_sleep tA mA obs false false false acts0 hrec
      have hmax : max settingsWaitAfterStabM settingsWaitAfterStabT
          = (activeDelays tA mA).foldr max 0 := by
        have h10 : max (10 : ℚ) 0 = 10 := max_eq_left (by norm_num)
        cases tA <;> cases mA <;>
          simp_all [activeDelays, settingsWaitAfterStabM, settingsWaitAfterStabT,
            max_self]
      constructor
      · have h0 : acts0.filter isSleepPost = [] := by
          rw [List.filter_eq_nil_iff]
          intro a ha
          rw [hsleep a ha]
          simp [isSleepPost]
        have hpre1 : (if tA = true then [StabAct.setT tSP] else []).filter isSleepPost
            = [] := by
          cases tA <;> simp [isSleepPost]
        have hpre2 : (if mA = true then [StabAct.setB mSP] else []).filter isSleepPost
            = [] := by
          cases mA <;> simp [isSleepPost]
        simp [List.filter_append, h0, hpre1, hpre2, isSleepPost, hmax]
      · exact List.getLast?_concat _

/-- Witness for C7: both controls active, one polling cycle with both
status codes at 150 (stable band), no stop request. -/
theorem stabilize_post_settle_max_dwell_witness :
    (true || true) = true
    ∧ stabilizeTB true true 300 0 settingsWaitAfterStabM settingsWaitAfterStabT
        [⟨false, 150, 150⟩] false
      = some (false, [.setT 300, .setB 0, .sleepLoop,
          .sleepPost (max settingsWaitAfterStabM settingsWaitAfterStabT)])
    ∧ ([StabAct.setT 300, StabAct.setB 0, StabAct.sleepLoop,
          StabAct.sleepPost (max settingsWaitAfterStabM settingsWaitAfterStabT)].filter
            isSleepPost
        = [.sleepPost ((activeDelays true true).foldr max 0)]
      ∧ [StabAct.setT 300, StabAct.setB 0, StabAct.sleepLoop,
          StabAct.sleepPost (max settingsWaitAfterStabM settingsWaitAfterStabT)].getLast?
        = some (.sleepPost (max settingsWaitAfterStabM settingsWaitAfterStabT))) :=
  ⟨rfl, rfl,
   stabilize_post_settle_max_dwell true true 300 0 [⟨false, 150, 150⟩] _ rfl rfl⟩

/-- C8: with an outer list of two drain currents and the abort flag
becoming set after the first outer iteration (before the second
iteration's abort check), transfer_measurement_i resets the instrument,
beeps, and returns exactly the first outer value's batch of rows — a
valid partial table, not an error. -/
theorem transfer_abort_before_second_iteration
    (vgStart vgStop vgStep d1 d2 : ℚ) (pulsed : PyVal) (hD hG : Bool)
    (meas : ℕ → Bufs) :
    transferMeasurementI vgStart vgStop vgStep [d1, d2] pulsed hD hG meas (some 3)
      = (.ok [⟨d1,
              sweeplistGate vgStart vgStop vgStep,
              List.replicate (sweeplistGate vgStart vgStop vgStep).length d1,
              directionGateFwd vgStart vgStop vgStep,
              (meas 0).smuvNv2, (meas 0).smuvNv1,
              (meas 0).smuiNv2, (meas 0).smuiNv1⟩],
         (dualTracePrefix hD hG ++ dualTraceSuffix) ++ [.reset, .beep (3/10) 2400]) := by
  simp [transferMeasurementI, transferGo, abortIsSet, currentVoltageSweepDualSmu,
    endPulseAction_eq]

/-- C10: the result-row loop of TBIVProcedure.execute names `enum`, which
is bound neither in the module globals nor in the builtins, so the loop
raises NameError instead of emitting rows; the intended enumeration
(modelled from the spec) would index the zipped per-step values 0-based,
one row per sweep point. -/
theorem tbiv_emission_name_error (sweep vdl idl : List ℚ) :
    tbivEmission sweep vdl idl = .error (.nameError "enum")
    ∧ (ivEmitRowsIntended sweep vdl idl).map (fun r => r.index)
        = List.range (((sweep.zip vdl).zip idl).length) := by
  constructor
  · rw [tbivEmission, if_neg (by decide)]
  · rw [ivEmitRowsIntended]
    simp [List.map_map, Function.comp_def, List.enum_map_fst]

end TBKeithley
